import Mathlib

/-!
# Verification of the recap-org backend's template pipeline

Shallow embedding of the backend's core modules:

* `src/app/cookiecutter.py` — template registry, render-context builder,
  download and github endpoints;
* `src/app/services/generator.py` — project generator and zip archiver;
* `src/app/auth.py` / `src/app/main.py` — GitHub OAuth flow and health check.

JSON documents (the template `cookiecutter.json` files and request bodies)
are modelled by `JValue`; Python dicts by association lists with Python's
insert-or-update assignment semantics (`setKey`).  External effects
(filesystem, rendering engine, hosting API, subprocesses) are parameters of
the embedded endpoint functions, and resource events (temp-dir creation and
deletion, upstream calls) are recorded in an explicit event trace.
-/

/-- A JSON value as Python represents it after `json.load` (numbers are
modelled by `Int`; the templates' schemas use strings, booleans, lists and
objects only). -/
inductive JValue where
  | str (s : String)
  | bool (b : Bool)
  | num (n : Int)
  | arr (xs : List JValue)
  | obj (kvs : List (String × JValue))
deriving Repr

/-- Python truthiness (`bool(v)`): empty string, `False`, `0`, empty list
and empty dict are falsy. -/
def JValue.isTruthy : JValue → Bool
  | .str s => !(s == "")
  | .bool b => b
  | .num n => !(n == 0)
  | .arr xs => !xs.isEmpty
  | .obj kvs => !kvs.isEmpty

/-- The name of a value's Python runtime type (`type(v).__name__`), used to
state type-compatibility between an override and a schema default. -/
def JValue.typeName : JValue → String
  | .str _ => "str"
  | .bool _ => "bool"
  | .num _ => "int"
  | .arr _ => "list"
  | .obj _ => "dict"

/-- A Python dict of JSON values: an association list whose operations keep
Python's dict semantics (assignment updates an existing key in place, a new
key is appended).  Dicts obtained from `json.load` have pairwise distinct
keys; theorems assume that (`Nodup` on the key list) where it matters. -/
abbrev PyDict := List (String × JValue)

/-- `d.get(k)`: the value at the first (for a genuine dict: the only)
occurrence of `k`. -/
def getKey (d : PyDict) (k : String) : Option JValue :=
  (d.find? (fun p => p.1 == k)).map (·.2)

/-- `d[k] = v`: update the existing entry in place, else append. -/
def setKey (d : PyDict) (k : String) (v : JValue) : PyDict :=
  if d.any (fun p => p.1 == k) then
    d.map (fun p => if p.1 = k then (k, v) else p)
  else
    d ++ [(k, v)]

/-- `v` if `v` is truthy else `d` — Python's `v or d` on `Optional` values
(`None` and `""` are falsy). -/
def pyOr (v d : Option String) : Option String :=
  match v with
  | some s => if s == "" then d else some s
  | none => d

/-- Truthiness of an `Optional[str]` (`None` and `""` are falsy). -/
def optTruthy : Option String → Bool
  | some s => !(s == "")
  | none => false

/-- Truthiness of `d.get(k)` — `None` (key absent) is falsy. -/
def optJTruthy : Option JValue → Bool
  | some v => v.isTruthy
  | none => false

/-! ## Context builder (`src/app/cookiecutter.py`) -/

/-- `RESERVED_CONFIG_KEYS` of `src/app/cookiecutter.py` line 37. -/
def RESERVED_CONFIG_KEYS : List String := ["__prompts__", "_jinja2_env_vars"]

/-- The `for k, v in overrides.items()` loop of
`_build_extra_context_from_template` (lines 100–104): reserved keys are
skipped, every other key is assigned into the context unchanged. -/
def applyOverrides (d : PyDict) (overrides : PyDict) : PyDict :=
  overrides.foldl
    (fun acc p =>
      if RESERVED_CONFIG_KEYS.contains p.1 then acc else setKey acc p.1 p.2)
    d

/-- Schema defaults merged with the overrides, before the `project_name`
fallback: `defaults = {k: v for k, v in template_cfg.items() if k not in
RESERVED_CONFIG_KEYS}` followed by the override loop
(`_build_extra_context_from_template`, lines 97–104).  The comprehension is
a key filter because a loaded dict's keys are pairwise distinct. -/
def mergedContext (templateCfg : PyDict) (overrides : PyDict) : PyDict :=
  applyOverrides
    (templateCfg.filter (fun p => !(RESERVED_CONFIG_KEYS.contains p.1)))
    overrides

/-- `_build_extra_context_from_template` (lines 95–108) for an
already-loaded template config: merge, then `if not
extra.get("project_name"): extra["project_name"] = "project"`.  The
function is total — it contains no validation and no error path. -/
def buildExtraContextFromTemplate (templateCfg : PyDict) (overrides : PyDict) :
    PyDict :=
  if !(optJTruthy (getKey (mergedContext templateCfg overrides) "project_name")) then
    setKey (mergedContext templateCfg overrides) "project_name" (.str "project")
  else
    mergedContext templateCfg overrides

/-! ## Template registry (`src/app/cookiecutter.py` lines 63–92) -/

/-- An entry of the top-level template index (model `TemplateInfo`). -/
structure TemplateInfo where
  path : String
  title : String
  description : String
deriving Repr, DecidableEq

/-- The filesystem state the registry reads at request time: the top-level
index's `templates` map (`none` when `cookiecutter/cookiecutter.json` is
missing), which directories exist, and each template directory's own
`cookiecutter.json` keyed by resolved path (`none` when missing). -/
structure TemplateStore where
  mainConfig : Option (List (String × TemplateInfo))
  dirExists : String → Bool
  templateConfig : String → Option PyDict

/-- The templates base directory (`COOKIECUTTER_BASE`), as the path prefix
under which template paths are resolved. -/
def COOKIECUTTER_BASE : String := "cookiecutter"

/-- An HTTP failure (`HTTPException`): status code and detail string. -/
abbrev HttpError := Nat × String

/-- `_resolve_template_path` (lines 72–82): look the name up in the index
and require the resolved directory to exist. -/
def resolveTemplatePath (st : TemplateStore) (templateName : String) :
    Except HttpError String :=
  match st.mainConfig with
  | none => .error (500, "Template configuration not found")
  | some templates =>
    match (templates.find? (fun p => p.1 == templateName)).map (·.2) with
    | none => .error (404, "Template '" ++ templateName ++ "' not found")
    | some info =>
      let path := COOKIECUTTER_BASE ++ "/" ++ info.path
      if st.dirExists path then .ok path
      else .error (404, "Template directory not found: " ++ path)

/-- `_load_template_config` (lines 85–92): load the template's own
`cookiecutter.json`, whole and unmodified. -/
def loadTemplateConfig (st : TemplateStore) (templateName : String) :
    Except HttpError PyDict :=
  match resolveTemplatePath st templateName with
  | .error e => .error e
  | .ok path =>
    match st.templateConfig path with
    | none =>
      .error (404, "Configuration for template '" ++ templateName ++ "' not found")
    | some cfg => .ok cfg

/-- `GET /cookiecutter/{template_name}` (`get_template_config`, lines
117–119): the loaded document is returned exactly as loaded — no key is
filtered out. -/
def getTemplateConfigEndpoint (st : TemplateStore) (templateName : String) :
    Except HttpError PyDict :=
  loadTemplateConfig st templateName

/-! ## GitHub token resolution (`src/app/cookiecutter.py` lines 182–191) -/

/-- Python `s.split(" ", 1)[1]`: everything after the first space.  Used
only under the `startswith("bearer ")` guard, which guarantees a space. -/
def splitOnceTail (s : String) : String :=
  s.extract (s.next (s.posOf ' ')) s.endPos

/-- The token lookup of `create_github_repo` (lines 182–188): a
`Bearer`-prefixed `Authorization` header wins; otherwise the session's
`github_token`, and then the `GITHUB_TOKEN` environment variable, via
Python's truthiness-based `or`. -/
def resolveGithubToken (authorization sessionToken envToken : Option String) :
    Option String :=
  match authorization with
  | some a =>
    if !(a == "") && a.toLower.startsWith "bearer " then
      some (splitOnceTail a).trim
    else
      pyOr sessionToken envToken
  | none => pyOr sessionToken envToken

/-! ## Endpoint pipelines with event traces -/

/-- Observable resource events of one endpoint run, in program order. -/
inductive Ev where
  /-- the POST to the hosting API's repository-creation URL -/
  | repoRequest
  /-- `tempfile.mkdtemp()` -/
  | mkdtemp
  /-- the call into the cookiecutter rendering engine -/
  | renderCall
  /-- `zip_directory_with_symlinks` -/
  | zipCall
  /-- the final `git push` subprocess -/
  | gitPush
  /-- `shutil.rmtree(temp_dir)` -/
  | rmtree
deriving Repr, DecidableEq

/-- The dict `generate_cookiecutter_project` returns on success. -/
structure GenerationResult where
  tempDir : String
  outputDir : String
  templatePath : String
deriving Repr, DecidableEq

/-- `generate_cookiecutter_project` (`src/app/services/generator.py` lines
74–105).  External outcomes are parameters: `resolveRes` is the registry
resolution, `tempDir` the fresh directory `mkdtemp` returns, `renderRes`
the rendering engine's outcome (`.error msg` models a raised exception,
whose message lands in the 500 detail).  On a rendering exception the
temporary directory is removed and the call fails; on success the caller
owns `tempDir`. -/
def generateCookiecutterProject (templateName : Option String)
    (resolveRes : Except HttpError String) (tempDir : String)
    (renderRes : Except String String) :
    Except HttpError GenerationResult × List Ev :=
  if !(optTruthy templateName) then
    (.error (400, "Missing template_name"), [])
  else
    match resolveRes with
    | .error e => (.error e, [])
    | .ok templatePath =>
      match renderRes with
      | .error msg =>
        (.error (500, "Error generating template: " ++ msg),
         [.mkdtemp, .renderCall, .rmtree])
      | .ok outputDir =>
        (.ok ⟨tempDir, outputDir, templatePath⟩, [.mkdtemp, .renderCall])

/-- `POST /cookiecutter/{template_name}/download` (`download_template`,
`src/app/cookiecutter.py` lines 122–151): resolve the template and build
the context (`resolveRes` bundles both pre-`mkdtemp` steps), then
`mkdtemp`, render and zip inside `try`, translate any exception into a
500, and delete the temporary directory in `finally` on every path.  The
streamed archive payload and filename are not modelled. -/
def downloadTemplate (resolveRes : Except HttpError Unit)
    (renderRes : Except String Unit) (zipRes : Except String Unit) :
    Except HttpError Unit × List Ev :=
  match resolveRes with
  | .error e => (.error e, [])
  | .ok _ =>
    match renderRes with
    | .error msg =>
      (.error (500, "Error generating template: " ++ msg),
       [.mkdtemp, .renderCall, .rmtree])
    | .ok _ =>
      match zipRes with
      | .error msg =>
        (.error (500, "Error generating template: " ++ msg),
         [.mkdtemp, .renderCall, .zipCall, .rmtree])
      | .ok _ => (.ok (), [.mkdtemp, .renderCall, .zipCall, .rmtree])

/-- The status translation of `create_github_repo` for an upstream
response with status `>= 400` (lines 240–242):
`code if code in (401, 403, 404, 422) else 502`. -/
def repoFailureStatus (code : Nat) : Nat :=
  if code = 401 ∨ code = 403 ∨ code = 404 ∨ code = 422 then code else 502

/-- `POST /cookiecutter/{template_name}/github` (`create_github_repo`,
`src/app/cookiecutter.py` lines 154–304), stage by stage: resolve the
auth token (401 when none); build the render context from the template
config (`templateCfg` is the config load's outcome — this happens before
the hosting call); POST to the hosting API (`httpResult` is `.error` on a
network failure, `.ok status` otherwise; `upstreamDetail` the detail
extracted from the error body); map a `>= 400` status through
`repoFailureStatus`; re-resolve the template path; then `mkdtemp`, render
and the git init/commit/push sequence inside `try`
(`renderRes`/`gitOpsRes`/`pushExitCode` are those calls' outcomes), with
the temporary directory deleted in `finally`.  The response body is not
modelled. -/
def createGithubRepo (authorization sessionToken envToken : Option String)
    (templateCfg : Except HttpError PyDict) (overrides : PyDict)
    (httpResult : Except String Nat) (upstreamDetail : String)
    (resolveRes : Except HttpError Unit)
    (renderRes : Except String Unit) (gitOpsRes : Except String Unit)
    (pushExitCode : Int) (pushStderr : String) :
    Except HttpError Unit × List Ev :=
  let token := resolveGithubToken authorization sessionToken envToken
  if !(optTruthy token) then
    (.error (401,
      "Missing GitHub token. Provide 'Authorization: Bearer <token>' header or set GITHUB_TOKEN env var."),
     [])
  else
    match templateCfg with
    | .error e => (.error e, [])
    | .ok cfg =>
      let _extraContext := buildExtraContextFromTemplate cfg overrides
      match httpResult with
      | .error msg =>
        (.error (502, "GitHub API request failed: " ++ msg), [.repoRequest])
      | .ok status =>
        if 400 ≤ status then
          (.error (repoFailureStatus status, upstreamDetail), [.repoRequest])
        else
          match resolveRes with
          | .error e => (.error e, [.repoRequest])
          | .ok _ =>
            match renderRes with
            | .error msg =>
              (.error (500, "Error generating or pushing template: " ++ msg),
               [.repoRequest, .mkdtemp, .renderCall, .rmtree])
            | .ok _ =>
              match gitOpsRes with
              | .error msg =>
                (.error (500, "Git operation failed: " ++ msg),
                 [.repoRequest, .mkdtemp, .renderCall, .rmtree])
              | .ok _ =>
                if pushExitCode ≠ 0 then
                  (.error (500,
                    "Error generating or pushing template: 500: Git push failed: "
                      ++ pushStderr),
                   [.repoRequest, .mkdtemp, .renderCall, .gitPush, .rmtree])
                else
                  (.ok (), [.repoRequest, .mkdtemp, .renderCall, .gitPush, .rmtree])

/-! ## OAuth callback validation (`src/app/auth.py` lines 40–52) -/

/-- The three input-validation failures of the OAuth callback. -/
inductive OAuthCallbackError where
  | missingCode
  | missingState
  | invalidState
deriving Repr, DecidableEq

/-- The input-validation phase of `github_callback` (`src/app/auth.py`
lines 41–52; byte-identical logic in `src/app/main.py` lines 559–570):
require `code`; require both a session-stored `oauth_state` and a
supplied `state`; then re-verify the supplied state's signature
(`s.loads(state)` inside `try` — `sigOk` models which strings carry a
valid signature under the configured secret).  `.ok ()` means control
proceeds toward the token exchange (the next check in the source is the
server's own OAuth configuration, not a property of the request). -/
def githubCallbackValidate (sigOk : String → Bool)
    (code state sessionOauthState : Option String) :
    Except OAuthCallbackError Unit :=
  if !(optTruthy code) then .error .missingCode
  else if !(optTruthy sessionOauthState) || !(optTruthy state) then
    .error .missingState
  else if sigOk (state.getD "") then .ok ()
  else .error .invalidState

/-! ## Health endpoint (`src/app/main.py` lines 153–165) -/

/-- The health response's claim-relevant fields (the constant `version`
and `templates_path` fields are not modelled). -/
structure HealthResponse where
  statusCode : Nat
  status : String
  templatesDirectoryExists : Bool
deriving Repr, DecidableEq

/-- `GET /health` (`health_check`): `templates_exist =
COOKIECUTTER_BASE.exists()` drives everything. -/
def healthCheck (templatesExist : Bool) : HealthResponse :=
  { statusCode := if templatesExist then 200 else 503
    status := if templatesExist then "healthy" else "unhealthy"
    templatesDirectoryExists := templatesExist }

/-! ## Archive builder (`src/app/services/generator.py` lines 108–123) -/

/-- What `Path.rglob` reports for one filesystem object.  `is_symlink()`
is checked before `is_file()` in the source, so a symlink counts as a
symlink even when its target is a regular file or a directory. -/
inductive FsKind where
  | symlink (target : String)
  | file (content : String)
  | dir
deriving Repr, DecidableEq

/-- A directory tree: named regular files, symbolic links and
subdirectories. -/
inductive FsNode where
  | file (name : String) (content : String)
  | symlink (name : String) (target : String)
  | dir (name : String) (children : List FsNode)
deriving Repr

/-- The recursive walk `Path(root).rglob('*')` over a forest of children
of the root: every node strictly below the root, with its
slash-separated path relative to the root; directories are listed too. -/
def rglobForest (pfx : String) : List FsNode → List (String × FsKind)
  | [] => []
  | .file n c :: rest => (pfx ++ n, .file c) :: rglobForest pfx rest
  | .symlink n t :: rest => (pfx ++ n, .symlink t) :: rglobForest pfx rest
  | .dir n cs :: rest =>
    (pfx ++ n, .dir) :: (rglobForest (pfx ++ n ++ "/") cs ++ rglobForest pfx rest)

/-- One archive member as the builder writes it. -/
inductive ZipEntry where
  /-- `zip_file.write(file_path, arcname)`: a regular file's content. -/
  | fileEntry (arcname : String) (content : String)
  /-- `zip_file.writestr(zi, link_target)`: a `ZipInfo` carrying the
  link's target as payload, with explicit `external_attr` and
  `create_system`. -/
  | symlinkEntry (arcname : String) (payload : String)
      (externalAttr : Nat) (createSystem : Nat)
deriving Repr, DecidableEq

/-- `zip_directory_with_symlinks` (lines 108–123) as its single loop over
the `rglob` listing: a symlink becomes an entry whose payload is
`os.readlink`'s result, with `create_system = 3` (Unix) and
`external_attr = (0o120000 | 0o755) << 16`; a regular file becomes an
entry with its content; anything else — a directory — adds no entry. -/
def zipDirectoryWithSymlinks : List (String × FsKind) → List ZipEntry
  | [] => []
  | (arcname, .symlink target) :: rest =>
    .symlinkEntry arcname target ((0o120000 ||| 0o755) <<< 16) 3
      :: zipDirectoryWithSymlinks rest
  | (arcname, .file content) :: rest =>
    .fileEntry arcname content :: zipDirectoryWithSymlinks rest
  | (_, .dir) :: rest => zipDirectoryWithSymlinks rest

/-- The number of regular files in a forest (recursively). -/
def countFilesForest : List FsNode → Nat
  | [] => 0
  | .file _ _ :: rest => 1 + countFilesForest rest
  | .symlink _ _ :: rest => countFilesForest rest
  | .dir _ cs :: rest => countFilesForest cs + countFilesForest rest

/-- The number of symbolic links in a forest (recursively). -/
def countSymlinksForest : List FsNode → Nat
  | [] => 0
  | .file _ _ :: rest => countSymlinksForest rest
  | .symlink _ _ :: rest => 1 + countSymlinksForest rest
  | .dir _ cs :: rest => countSymlinksForest cs + countSymlinksForest rest

/-- The bearer-header guard of `create_github_repo` (line 183):
`authorization and authorization.lower().startswith("bearer ")`. -/
def isBearerAuth (authorization : Option String) : Bool :=
  match authorization with
  | some a => !(a == "") && a.toLower.startsWith "bearer "
  | none => false

/-- Whether one `rglob` listing item produces an archive entry: symlinks
and regular files do, directories do not. -/
def isEntrySource : String × FsKind → Bool
  | (_, .dir) => false
  | _ => true

/-- A concrete registry state for evaluation: an `article` template whose
own `cookiecutter.json` carries the reserved `__prompts__` key, as real
cookiecutter templates commonly do. -/
def promptsDemoStore : TemplateStore :=
  { mainConfig := some [("article", ⟨"article", "Article", "Academic article template"⟩)]
    dirExists := fun _ => true
    templateConfig := fun p =>
      if p = "cookiecutter/article" then
        some [("project_name", JValue.str "Demo"),
              ("__prompts__", JValue.obj [("project_name", JValue.str "Project name?")])]
      else none }

/-! ## Dictionary lemmas -/

theorem getKey_cons (q : String × JValue) (d : PyDict) (k : String) :
    getKey (q :: d) k = if q.1 = k then some q.2 else getKey d k := by
  by_cases h : q.1 = k
  · rw [getKey, List.find?_cons_of_pos _ (by simpa using h)]
    simp [h]
  · rw [getKey, List.find?_cons_of_neg _ (by simpa using h)]
    simp [h, getKey]

theorem getKey_map_assign_self (d : PyDict) (k : String) (v : JValue)
    (h : d.any (fun p => p.1 == k)) :
    getKey (d.map (fun p => if p.1 = k then (k, v) else p)) k = some v := by
  induction d with
  | nil => simp at h
  | cons p rest ih =>
    simp only [List.map_cons]
    rw [getKey_cons]
    by_cases hp : p.1 = k
    · simp only [if_pos hp]
      simp
    · simp only [if_neg hp]
      simp only [List.any_cons, Bool.or_eq_true, beq_iff_eq] at h
      rcases h with h1 | h2
      · exact absurd h1 hp
      · exact ih h2

theorem getKey_map_assign_ne (d : PyDict) (k : String) (v : JValue)
    (k' : String) (hne : k' ≠ k) :
    getKey (d.map (fun p => if p.1 = k then (k, v) else p)) k' = getKey d k' := by
  induction d with
  | nil => simp
  | cons p rest ih =>
    simp only [List.map_cons]
    rw [getKey_cons, getKey_cons]
    by_cases hp : p.1 = k
    · have hk : ¬(k = k') := fun h => hne h.symm
      have hp' : ¬(p.1 = k') := by rw [hp]; exact hk
      simp only [if_pos hp, if_neg hp']
      rw [if_neg (by simpa using hk)]
      exact ih
    · simp only [if_neg hp]
      by_cases hq : p.1 = k'
      · simp only [if_pos hq]
      · simp only [if_neg hq]
        exact ih

theorem getKey_append_single (d : PyDict) (k : String) (v : JValue) (k' : String) :
    getKey (d ++ [(k, v)]) k' =
      (getKey d k').orElse (fun _ => if k = k' then some v else none) := by
  induction d with
  | nil => simp [getKey_cons, getKey]
  | cons p rest ih =>
    simp only [List.cons_append]
    rw [getKey_cons, getKey_cons]
    by_cases hp : p.1 = k'
    · simp [hp]
    · simp [hp, ih]

theorem getKey_setKey_self (d : PyDict) (k : String) (v : JValue) :
    getKey (setKey d k v) k = some v := by
  unfold setKey
  by_cases h : d.any (fun p => p.1 == k)
  · simpa [h] using getKey_map_assign_self d k v h
  · have hnone : getKey d k = none := by
      simp only [List.any_eq_true, beq_iff_eq, not_exists] at h
      unfold getKey
      rw [List.find?_eq_none.mpr]
      · rfl
      · intro p hp
        simp only [beq_iff_eq]
        exact fun hh => (h p) ⟨hp, hh⟩
    simp [h, getKey_append_single, hnone]

theorem getKey_setKey_ne (d : PyDict) (k : String) (v : JValue) (k' : String)
    (hne : k' ≠ k) : getKey (setKey d k v) k' = getKey d k' := by
  unfold setKey
  by_cases h : d.any (fun p => p.1 == k)
  · simpa [h] using getKey_map_assign_ne d k v k' hne
  · have hk : ¬(k = k') := fun hh => hne hh.symm
    rw [if_neg h, getKey_append_single]
    simp [hk]

theorem applyOverrides_cons (d : PyDict) (p : String × JValue) (rest : PyDict) :
    applyOverrides d (p :: rest) =
      applyOverrides
        (if RESERVED_CONFIG_KEYS.contains p.1 then d else setKey d p.1 p.2)
        rest := by
  simp [applyOverrides]

theorem getKey_applyOverrides_not_mem (ov : PyDict) (d : PyDict) (k : String)
    (h : ∀ p ∈ ov, p.1 ≠ k) :
    getKey (applyOverrides d ov) k = getKey d k := by
  induction ov generalizing d with
  | nil => rfl
  | cons p rest ih =>
    rw [applyOverrides_cons]
    by_cases hr : RESERVED_CONFIG_KEYS.contains p.1
    · rw [if_pos hr]
      exact ih d (fun q hq => h q (List.mem_cons_of_mem _ hq))
    · rw [if_neg hr]
      rw [ih _ (fun q hq => h q (List.mem_cons_of_mem _ hq))]
      exact getKey_setKey_ne d p.1 p.2 k
        (fun hh => h p (List.mem_cons_self _ _) hh.symm)

theorem getKey_applyOverrides_mem (ov : PyDict) (d : PyDict) (k : String)
    (v : JValue) (hnd : (ov.map Prod.fst).Nodup) (hmem : (k, v) ∈ ov)
    (hres : ¬ RESERVED_CONFIG_KEYS.contains k) :
    getKey (applyOverrides d ov) k = some v := by
  induction ov generalizing d with
  | nil => simp at hmem
  | cons p rest ih =>
    rw [applyOverrides_cons]
    rcases List.mem_cons.mp hmem with heq | htail
    · subst heq
      rw [if_neg hres]
      have hk : ∀ q ∈ rest, q.1 ≠ k := by
        intro q hq
        simp only [List.map_cons, List.nodup_cons] at hnd
        intro hqk
        exact hnd.1 (hqk ▸ List.mem_map_of_mem Prod.fst hq)
      rw [getKey_applyOverrides_not_mem rest _ k hk]
      exact getKey_setKey_self d k v
    · simp only [List.map_cons, List.nodup_cons] at hnd
      by_cases hr : RESERVED_CONFIG_KEYS.contains p.1
      · rw [if_pos hr]; exact ih _ hnd.2 htail
      · rw [if_neg hr]; exact ih _ hnd.2 htail

theorem getKey_filter_of_mem (cfg : PyDict) (Q : String → Bool) (k : String)
    (v : JValue) (hnd : (cfg.map Prod.fst).Nodup) (hmem : (k, v) ∈ cfg)
    (hQ : Q k = true) :
    getKey (cfg.filter (fun p => Q p.1)) k = some v := by
  induction cfg with
  | nil => simp at hmem
  | cons p rest ih =>
    simp only [List.map_cons, List.nodup_cons] at hnd
    rcases List.mem_cons.mp hmem with heq | htail
    · subst heq
      rw [List.filter_cons, if_pos (by simpa using hQ)]
      rw [getKey_cons, if_pos rfl]
    · rw [List.filter_cons]
      have hne : p.1 ≠ k := by
        intro hh
        exact hnd.1 (hh ▸ List.mem_map_of_mem Prod.fst htail)
      by_cases hq : Q p.1
      · rw [if_pos (by simpa using hq), getKey_cons, if_neg hne]
        exact ih hnd.2 htail
      · rw [if_neg (by simpa using hq)]
        exact ih hnd.2 htail

/-! ## Context-builder lemmas -/

theorem getKey_build_ne_pn (cfg ov : PyDict) (k : String)
    (hne : k ≠ "project_name") :
    getKey (buildExtraContextFromTemplate cfg ov) k
      = getKey (mergedContext cfg ov) k := by
  unfold buildExtraContextFromTemplate
  by_cases h : optJTruthy (getKey (mergedContext cfg ov) "project_name")
  · simp [h]
  · simp only [h]
    simpa using getKey_setKey_ne (mergedContext cfg ov) "project_name" (.str "project") k hne

theorem getKey_build_override (cfg ov : PyDict) (k : String) (v : JValue)
    (hov : (ov.map Prod.fst).Nodup) (hmem : (k, v) ∈ ov)
    (hres : ¬ RESERVED_CONFIG_KEYS.contains k)
    (hpn : ¬(k = "project_name" ∧ v.isTruthy = false)) :
    getKey (buildExtraContextFromTemplate cfg ov) k = some v := by
  have hm : getKey (mergedContext cfg ov) k = some v :=
    getKey_applyOverrides_mem ov _ k v hov hmem hres
  by_cases hk : k = "project_name"
  · subst hk
    have htr : v.isTruthy = true := by
      by_contra hfalse
      exact hpn ⟨rfl, by simpa using hfalse⟩
    unfold buildExtraContextFromTemplate
    rw [hm]
    simp [optJTruthy, htr, hm]
  · rw [getKey_build_ne_pn cfg ov k hk]
    exact hm

theorem getKey_build_default (cfg ov : PyDict) (k : String) (v : JValue)
    (hcfg : (cfg.map Prod.fst).Nodup) (hmem : (k, v) ∈ cfg)
    (hres : ¬ RESERVED_CONFIG_KEYS.contains k)
    (hnov : ∀ p ∈ ov, p.1 ≠ k)
    (hpn : ¬(k = "project_name" ∧ v.isTruthy = false)) :
    getKey (buildExtraContextFromTemplate cfg ov) k = some v := by
  have hcf : RESERVED_CONFIG_KEYS.contains k = false := Bool.eq_false_iff.mpr hres
  have hd : getKey (cfg.filter (fun p => !(RESERVED_CONFIG_KEYS.contains p.1))) k
      = some v :=
    getKey_filter_of_mem cfg (fun s => !(RESERVED_CONFIG_KEYS.contains s)) k v
      hcfg hmem (by show (!(RESERVED_CONFIG_KEYS.contains k)) = true; rw [hcf]; rfl)
  have hm : getKey (mergedContext cfg ov) k = some v := by
    unfold mergedContext
    rw [getKey_applyOverrides_not_mem ov _ k hnov]
    exact hd
  by_cases hk : k = "project_name"
  · subst hk
    have htr : v.isTruthy = true := by
      by_contra hfalse
      exact hpn ⟨rfl, by simpa using hfalse⟩
    unfold buildExtraContextFromTemplate
    rw [hm]
    simp [optJTruthy, htr, hm]
  · rw [getKey_build_ne_pn cfg ov k hk]
    exact hm

theorem getKey_build_pn (cfg ov : PyDict) :
    ∃ w, getKey (buildExtraContextFromTemplate cfg ov) "project_name" = some w
      ∧ w.isTruthy = true
      ∧ (optJTruthy (getKey (mergedContext cfg ov) "project_name") = false →
          w = JValue.str "project") := by
  by_cases h : optJTruthy (getKey (mergedContext cfg ov) "project_name")
  · cases hm : getKey (mergedContext cfg ov) "project_name" with
    | none => rw [hm] at h; simp [optJTruthy] at h
    | some w =>
      have hw : w.isTruthy = true := by
        rw [hm] at h; simpa [optJTruthy] using h
      refine ⟨w, ?_, hw, ?_⟩
      · unfold buildExtraContextFromTemplate
        rw [hm]
        simp [optJTruthy, hw, hm]
      · intro hf
        simp [optJTruthy, hw] at hf
  · refine ⟨.str "project", ?_, by simp [JValue.isTruthy], fun _ => rfl⟩
    unfold buildExtraContextFromTemplate
    simp only [h, Bool.not_false, if_pos]
    exact getKey_setKey_self _ _ _

/-! ## Claim theorems -/

/-- C1 (code-bug evidence): on the input of the repository's own test
`test_download_type_mismatch_returns_400` — template schema
`{"project_name": "Demo", "r_version": true}` and caller override
`{"r_version": 2}`, whose runtime type (int) differs from the schema
default's (bool) — building the render context does NOT fail with a
TypeMismatch: `_build_extra_context_from_template` is a total function
with no validation, and it returns a context mapping `r_version` to the
mismatched override value `2`, so the download/github endpoints proceed
to render instead of aborting with HTTP 400. -/
theorem c1_type_mismatch_not_rejected :
    buildExtraContextFromTemplate
        [("project_name", JValue.str "Demo"), ("r_version", JValue.bool true)]
        [("r_version", JValue.num 2)]
      = [("project_name", JValue.str "Demo"), ("r_version", JValue.num 2)]
    ∧ getKey
        (buildExtraContextFromTemplate
          [("project_name", JValue.str "Demo"), ("r_version", JValue.bool true)]
          [("r_version", JValue.num 2)])
        "r_version" = some (JValue.num 2) := by
  exact ⟨by rfl, by rfl⟩

/-- C2 counterexample: for a template whose on-disk `cookiecutter.json`
contains the reserved `__prompts__` key, the schema document returned by
the GET template-config endpoint contains that reserved key — the claim
that the returned document never contains a reserved key is false. -/
theorem c2_counterexample :
    getTemplateConfigEndpoint promptsDemoStore "article"
      = .ok [("project_name", JValue.str "Demo"),
             ("__prompts__", JValue.obj [("project_name", JValue.str "Project name?")])]
    ∧ getKey
        [("project_name", JValue.str "Demo"),
         ("__prompts__", JValue.obj [("project_name", JValue.str "Project name?")])]
        "__prompts__"
      = some (JValue.obj [("project_name", JValue.str "Project name?")])
    ∧ "__prompts__" ∈ RESERVED_CONFIG_KEYS := by
  exact ⟨by rfl, by rfl, by decide⟩

/-- C2 (amended): the GET template-config endpoint returns the template's
on-disk `cookiecutter.json` verbatim — whatever document it returns is
exactly the stored file, with no key (reserved or otherwise) filtered
out.  Reserved keys are excluded only when the render context is built. -/
theorem c2_schema_returned_verbatim (st : TemplateStore) (name : String)
    (cfg : PyDict) (h : getTemplateConfigEndpoint st name = .ok cfg) :
    ∃ p, resolveTemplatePath st name = .ok p
      ∧ st.templateConfig p = some cfg := by
  unfold getTemplateConfigEndpoint loadTemplateConfig at h
  revert h
  cases hr : resolveTemplatePath st name with
  | error e => intro h; simp at h
  | ok p =>
    cases ht : st.templateConfig p with
    | none =>
      intro h
      simp [ht] at h
    | some c =>
      intro h
      simp only [ht, Except.ok.injEq] at h
      exact ⟨p, rfl, by rw [ht, h]⟩

/-- C2 witness: the verbatim-return theorem applied to the concrete
store whose `article` schema carries `__prompts__`. -/
theorem c2_witness :
    ∃ p, resolveTemplatePath promptsDemoStore "article" = .ok p
      ∧ promptsDemoStore.templateConfig p
        = some [("project_name", JValue.str "Demo"),
                ("__prompts__", JValue.obj [("project_name", JValue.str "Project name?")])] :=
  c2_schema_returned_verbatim promptsDemoStore "article"
    [("project_name", JValue.str "Demo"),
     ("__prompts__", JValue.obj [("project_name", JValue.str "Project name?")])]
    (by rfl)

/-- C3: for overrides whose keys all exist (non-reserved) in the schema
with type-matching values, the built context maps each overridden key to
the override's value and each non-overridden non-reserved schema key to
its default — in both cases with the `project_name` fallback as the one
exception the claim itself states — and the final `project_name` is
always present and truthy, equal to the literal `"project"` whenever the
merged value would otherwise be falsy ("empty") or absent. -/
theorem c3_valid_overrides_merge (cfg ov : PyDict)
    (hcfg : (cfg.map Prod.fst).Nodup) (hov : (ov.map Prod.fst).Nodup)
    (hvalid : ∀ p ∈ ov, ¬ RESERVED_CONFIG_KEYS.contains p.1 ∧
        ∃ d, (p.1, d) ∈ cfg ∧ d.typeName = p.2.typeName) :
    (∀ k v, (k, v) ∈ ov → ¬(k = "project_name" ∧ v.isTruthy = false) →
        getKey (buildExtraContextFromTemplate cfg ov) k = some v)
    ∧ (∀ k v, (k, v) ∈ cfg → ¬ RESERVED_CONFIG_KEYS.contains k →
        (∀ p ∈ ov, p.1 ≠ k) → ¬(k = "project_name" ∧ v.isTruthy = false) →
        getKey (buildExtraContextFromTemplate cfg ov) k = some v)
    ∧ (∃ w, getKey (buildExtraContextFromTemplate cfg ov) "project_name" = some w
        ∧ w.isTruthy = true
        ∧ (optJTruthy (getKey (mergedContext cfg ov) "project_name") = false →
            w = JValue.str "project")) := by
  refine ⟨?_, ?_, getKey_build_pn cfg ov⟩
  · intro k v hmem hpn
    exact getKey_build_override cfg ov k v hov hmem ((hvalid (k, v) hmem).1) hpn
  · intro k v hmem hres hnov hpn
    exact getKey_build_default cfg ov k v hcfg hmem hres hnov hpn

/-- C3 witness: schema `{"project_name": "Demo", "r_version": "4.5.1"}`
with the matching override `{"r_version": "4.2.0"}`: the override lands,
the untouched default stays. -/
theorem c3_witness :
    getKey (buildExtraContextFromTemplate
        [("project_name", JValue.str "Demo"), ("r_version", JValue.str "4.5.1")]
        [("r_version", JValue.str "4.2.0")]) "r_version"
      = some (JValue.str "4.2.0")
    ∧ getKey (buildExtraContextFromTemplate
        [("project_name", JValue.str "Demo"), ("r_version", JValue.str "4.5.1")]
        [("r_version", JValue.str "4.2.0")]) "project_name"
      = some (JValue.str "Demo") := by
  have h := c3_valid_overrides_merge
    [("project_name", JValue.str "Demo"), ("r_version", JValue.str "4.5.1")]
    [("r_version", JValue.str "4.2.0")]
    (by decide) (by decide)
    (by
      intro p hp
      simp only [List.mem_singleton] at hp
      subst hp
      exact ⟨by decide, ⟨JValue.str "4.5.1", by simp, rfl⟩⟩)
  refine ⟨h.1 "r_version" (JValue.str "4.2.0") (by simp) (by simp), ?_⟩
  refine h.2.1 "project_name" (JValue.str "Demo") (by simp) (by decide) ?_ ?_
  · intro p hp
    simp only [List.mem_singleton] at hp
    subst hp
    simp
  · simp [JValue.isTruthy]

/-- C9 counterexample: the non-reserved override key `project_name` with
the caller's value `""` is not mapped to the caller's value — the built
context maps it to the fallback `"project"`. -/
theorem c9_counterexample :
    getKey (buildExtraContextFromTemplate [] [("project_name", JValue.str "")])
        "project_name" = some (JValue.str "project")
    ∧ getKey (buildExtraContextFromTemplate [] [("project_name", JValue.str "")])
        "project_name" ≠ some (JValue.str "") := by
  constructor
  · rfl
  · have h1 : getKey (buildExtraContextFromTemplate [] [("project_name", JValue.str "")])
        "project_name" = some (JValue.str "project") := by rfl
    rw [h1]
    simp

/-- C9 (amended): every override whose key is not reserved reaches the
built context mapped to exactly the caller's value — no coercion, no
validation, even for keys absent from the schema — except that an
override setting `project_name` to a Python-falsy value is replaced by
the fallback `"project"`. -/
theorem c9_override_passthrough (cfg ov : PyDict) (k : String) (v : JValue)
    (hov : (ov.map Prod.fst).Nodup) (hmem : (k, v) ∈ ov)
    (hres : ¬ RESERVED_CONFIG_KEYS.contains k)
    (hpn : ¬(k = "project_name" ∧ v.isTruthy = false)) :
    getKey (buildExtraContextFromTemplate cfg ov) k = some v :=
  getKey_build_override cfg ov k v hov hmem hres hpn

/-- C9 witness: the schema-absent key `license` passes through to the
context with the caller's exact value. -/
theorem c9_witness :
    getKey (buildExtraContextFromTemplate [] [("license", JValue.str "MIT")])
      "license" = some (JValue.str "MIT") :=
  c9_override_passthrough [] [("license", JValue.str "MIT")] "license"
    (JValue.str "MIT") (by decide) (by simp) (by decide) (by simp)

/-! ## Archive-builder lemmas -/

theorem zip_length (es : List (String × FsKind)) :
    (zipDirectoryWithSymlinks es).length = es.countP isEntrySource := by
  induction es with
  | nil => rfl
  | cons p rest ih =>
    obtain ⟨a, k⟩ := p
    cases k <;>
      simp [zipDirectoryWithSymlinks, isEntrySource, List.countP_cons, ih]

theorem rglob_countP (pfx : String) (f : List FsNode) :
    (rglobForest pfx f).countP isEntrySource
      = countFilesForest f + countSymlinksForest f := by
  induction pfx, f using rglobForest.induct with
  | case1 pfx => simp [rglobForest, countFilesForest, countSymlinksForest]
  | case2 pfx n c rest ih =>
    simp [rglobForest, countFilesForest, countSymlinksForest, List.countP_cons,
      isEntrySource, ih]
    omega
  | case3 pfx n t rest ih =>
    simp [rglobForest, countFilesForest, countSymlinksForest, List.countP_cons,
      isEntrySource, ih]
    omega
  | case4 pfx n cs rest ih1 ih2 =>
    simp [rglobForest, countFilesForest, countSymlinksForest, List.countP_cons,
      List.countP_append, isEntrySource, ih1, ih2]
    omega

theorem zip_mem_file (es : List (String × FsKind)) (p : String) (c : String)
    (h : (p, FsKind.file c) ∈ es) :
    ZipEntry.fileEntry p c ∈ zipDirectoryWithSymlinks es := by
  induction es with
  | nil => simp at h
  | cons q rest ih =>
    obtain ⟨a, k⟩ := q
    rcases List.mem_cons.mp h with heq | htail
    · obtain ⟨rfl, rfl⟩ := Prod.mk.injEq .. ▸ heq
      simp [zipDirectoryWithSymlinks]
    · cases k with
      | symlink t2 =>
        simp only [zipDirectoryWithSymlinks]
        exact List.mem_cons_of_mem _ (ih htail)
      | file c2 =>
        simp only [zipDirectoryWithSymlinks]
        exact List.mem_cons_of_mem _ (ih htail)
      | dir =>
        simp only [zipDirectoryWithSymlinks]
        exact ih htail

theorem zip_mem_symlink (es : List (String × FsKind)) (p : String) (t : String)
    (h : (p, FsKind.symlink t) ∈ es) :
    ZipEntry.symlinkEntry p t ((0o120000 ||| 0o755) <<< 16) 3
      ∈ zipDirectoryWithSymlinks es := by
  induction es with
  | nil => simp at h
  | cons q rest ih =>
    obtain ⟨a, k⟩ := q
    rcases List.mem_cons.mp h with heq | htail
    · obtain ⟨rfl, rfl⟩ := Prod.mk.injEq .. ▸ heq
      simp [zipDirectoryWithSymlinks]
    · cases k with
      | symlink t2 =>
        simp only [zipDirectoryWithSymlinks]
        exact List.mem_cons_of_mem _ (ih htail)
      | file c2 =>
        simp only [zipDirectoryWithSymlinks]
        exact List.mem_cons_of_mem _ (ih htail)
      | dir =>
        simp only [zipDirectoryWithSymlinks]
        exact ih htail

theorem zip_sources (es : List (String × FsKind)) :
    ∀ e ∈ zipDirectoryWithSymlinks es,
      (∃ p c, e = ZipEntry.fileEntry p c ∧ (p, FsKind.file c) ∈ es)
      ∨ (∃ p t, e = ZipEntry.symlinkEntry p t ((0o120000 ||| 0o755) <<< 16) 3
          ∧ (p, FsKind.symlink t) ∈ es) := by
  induction es with
  | nil => intro e he; simp [zipDirectoryWithSymlinks] at he
  | cons q rest ih =>
    obtain ⟨a, k⟩ := q
    intro e he
    cases k with
    | symlink t =>
      rcases List.mem_cons.mp he with heq | htail
      · exact Or.inr ⟨a, t, heq, List.mem_cons_self _ _⟩
      · rcases ih e htail with ⟨p, c, hpc, hmem⟩ | ⟨p, t2, hpt, hmem⟩
        · exact Or.inl ⟨p, c, hpc, List.mem_cons_of_mem _ hmem⟩
        · exact Or.inr ⟨p, t2, hpt, List.mem_cons_of_mem _ hmem⟩
    | file c =>
      rcases List.mem_cons.mp he with heq | htail
      · exact Or.inl ⟨a, c, heq, List.mem_cons_self _ _⟩
      · rcases ih e htail with ⟨p, c2, hpc, hmem⟩ | ⟨p, t2, hpt, hmem⟩
        · exact Or.inl ⟨p, c2, hpc, List.mem_cons_of_mem _ hmem⟩
        · exact Or.inr ⟨p, t2, hpt, List.mem_cons_of_mem _ hmem⟩
    | dir =>
      rcases ih e he with ⟨p, c2, hpc, hmem⟩ | ⟨p, t2, hpt, hmem⟩
      · exact Or.inl ⟨p, c2, hpc, List.mem_cons_of_mem _ hmem⟩
      · exact Or.inr ⟨p, t2, hpt, List.mem_cons_of_mem _ hmem⟩

/-- C6: for every directory tree, the archive holds exactly one entry per
regular file and one per symbolic link (the length equation), each file's
entry carries its content at its relative path, each symlink's entry
carries the link target as payload with external attributes
`(0o120000 | 0o755) << 16` and `create_system = 3` (Unix), every entry
comes from a file or a symlink — none from a directory — and the
attribute word is the Unix symlink file-type bits plus `0o755`
permissions shifted into the high 16 bits. -/
theorem c6_zip_entries (f : List FsNode) :
    (zipDirectoryWithSymlinks (rglobForest "" f)).length
      = countFilesForest f + countSymlinksForest f
    ∧ (∀ p c, (p, FsKind.file c) ∈ rglobForest "" f →
        ZipEntry.fileEntry p c ∈ zipDirectoryWithSymlinks (rglobForest "" f))
    ∧ (∀ p t, (p, FsKind.symlink t) ∈ rglobForest "" f →
        ZipEntry.symlinkEntry p t ((0o120000 ||| 0o755) <<< 16) 3
          ∈ zipDirectoryWithSymlinks (rglobForest "" f))
    ∧ (∀ e ∈ zipDirectoryWithSymlinks (rglobForest "" f),
        (∃ p c, e = ZipEntry.fileEntry p c ∧ (p, FsKind.file c) ∈ rglobForest "" f)
        ∨ (∃ p t, e = ZipEntry.symlinkEntry p t ((0o120000 ||| 0o755) <<< 16) 3
            ∧ (p, FsKind.symlink t) ∈ rglobForest "" f))
    ∧ (0o120000 ||| 0o755) <<< 16 = (0o120000 + 0o755) * 2 ^ 16 := by
  refine ⟨(zip_length _).trans (rglob_countP "" f), ?_, ?_, zip_sources _, by decide⟩
  · intro p c h
    exact zip_mem_file _ p c h
  · intro p t h
    exact zip_mem_symlink _ p t h

/-- C10: the health endpoint answers 200 with status `"healthy"` exactly
when the templates base directory exists, 503 with `"unhealthy"` when it
does not, and in both cases reports `templates_directory_exists` equal to
that existence check. -/
theorem c10_health_check (templatesExist : Bool) :
    (((healthCheck templatesExist).statusCode = 200
        ∧ (healthCheck templatesExist).status = "healthy")
      ↔ templatesExist = true)
    ∧ (((healthCheck templatesExist).statusCode = 503
        ∧ (healthCheck templatesExist).status = "unhealthy")
      ↔ templatesExist = false)
    ∧ (healthCheck templatesExist).templatesDirectoryExists = templatesExist := by
  cases templatesExist <;> simp [healthCheck]

/-- C4: the OAuth callback's validation succeeds — control proceeds to
the token exchange — if and only if a `code` is supplied, the session
holds an `oauth_state` AND a `state` parameter is supplied, and the
supplied state's signature verifies; the failures are `MissingCode`,
`MissingState` and `InvalidState` respectively, as HTTP 400s at the web
boundary.  The last conjunct exhibits acceptance with a supplied state
that differs byte-for-byte from the stored one: equality is never
required, only independent re-verifiability. -/
theorem c4_callback_validation (sigOk : String → Bool)
    (code state stored : Option String) :
    (githubCallbackValidate sigOk code state stored = .ok () ↔
      optTruthy code = true ∧ optTruthy stored = true ∧ optTruthy state = true
        ∧ sigOk (state.getD "") = true)
    ∧ (optTruthy code = false →
        githubCallbackValidate sigOk code state stored
          = .error .missingCode)
    ∧ (optTruthy code = true →
        (optTruthy stored = false ∨ optTruthy state = false) →
        githubCallbackValidate sigOk code state stored
          = .error .missingState)
    ∧ (optTruthy code = true → optTruthy stored = true →
        optTruthy state = true → sigOk (state.getD "") = false →
        githubCallbackValidate sigOk code state stored
          = .error .invalidState)
    ∧ (∃ suppliedState storedState : String, suppliedState ≠ storedState ∧
        githubCallbackValidate (fun _ => true) (some "c")
          (some suppliedState) (some storedState) = .ok ()) := by
  refine ⟨?_, ?_, ?_, ?_, ⟨"s1", "s2", by simp, by rfl⟩⟩ <;>
    (try intro hc) <;>
    unfold githubCallbackValidate <;>
    by_cases h1 : optTruthy code <;>
    by_cases h2 : optTruthy stored <;>
    by_cases h3 : optTruthy state <;>
    by_cases h4 : sigOk (state.getD "") <;>
    simp_all

/-- C5: with an auth token resolved and the template config loaded, a
repository-creation response of status 401, 403, 404 or 422 makes the
github endpoint fail with that same status; any other status `>= 400`
fails with the generic upstream-error status 502 (in both cases before
any generation — no temporary directory is created); and a status
`< 400` proceeds to generation (the rendering engine is invoked). -/
theorem c5_upstream_status_mapping
    (authorization sessionToken envToken : Option String) (cfg : PyDict)
    (overrides : PyDict) (status : Nat) (upstreamDetail : String)
    (resolveRes : Except HttpError Unit) (renderRes gitOpsRes : Except String Unit)
    (pushExitCode : Int) (pushStderr : String)
    (htok : optTruthy (resolveGithubToken authorization sessionToken envToken)
      = true) :
    (status = 401 ∨ status = 403 ∨ status = 404 ∨ status = 422 →
      (createGithubRepo authorization sessionToken envToken (.ok cfg) overrides
          (.ok status) upstreamDetail resolveRes renderRes gitOpsRes
          pushExitCode pushStderr).1
        = .error (status, upstreamDetail)
      ∧ Ev.mkdtemp ∉
          (createGithubRepo authorization sessionToken envToken (.ok cfg)
            overrides (.ok status) upstreamDetail resolveRes renderRes gitOpsRes
            pushExitCode pushStderr).2)
    ∧ (400 ≤ status → ¬(status = 401 ∨ status = 403 ∨ status = 404 ∨ status = 422) →
      (createGithubRepo authorization sessionToken envToken (.ok cfg) overrides
          (.ok status) upstreamDetail resolveRes renderRes gitOpsRes
          pushExitCode pushStderr).1
        = .error (502, upstreamDetail)
      ∧ Ev.mkdtemp ∉
          (createGithubRepo authorization sessionToken envToken (.ok cfg)
            overrides (.ok status) upstreamDetail resolveRes renderRes gitOpsRes
            pushExitCode pushStderr).2)
    ∧ (status < 400 → resolveRes = .ok () →
      Ev.renderCall ∈
        (createGithubRepo authorization sessionToken envToken (.ok cfg)
          overrides (.ok status) upstreamDetail resolveRes renderRes gitOpsRes
          pushExitCode pushStderr).2) := by
  refine ⟨?_, ?_, ?_⟩
  · intro h
    have h400 : 400 ≤ status := by rcases h with h|h|h|h <;> omega
    unfold createGithubRepo repoFailureStatus
    simp [htok, h400, h]
  · intro h400 hnot
    unfold createGithubRepo repoFailureStatus
    simp [htok, h400, hnot]
  · intro hlt hres
    subst hres
    unfold createGithubRepo
    simp only [htok, Bool.not_true, Bool.false_eq_true, if_false]
    rw [if_neg (by omega : ¬ 400 ≤ status)]
    cases renderRes <;> cases gitOpsRes <;>
      by_cases hp : pushExitCode ≠ 0 <;> simp [hp]

/-- C8: a request to the github endpoint with no Bearer authorization
header (absent or not `Bearer`-prefixed), no session `github_token` and
no `GITHUB_TOKEN` environment value fails with HTTP 401 and the
missing-GitHub-token detail, with an empty event trace: no call to the
hosting API, no temporary directory, no generation. -/
theorem c8_missing_token_401
    (authorization : Option String) (templateCfg : Except HttpError PyDict)
    (overrides : PyDict) (httpResult : Except String Nat)
    (upstreamDetail : String) (resolveRes : Except HttpError Unit)
    (renderRes gitOpsRes : Except String Unit) (pushExitCode : Int)
    (pushStderr : String) (hnb : isBearerAuth authorization = false) :
    createGithubRepo authorization none none templateCfg overrides httpResult
        upstreamDetail resolveRes renderRes gitOpsRes pushExitCode pushStderr
      = (.error (401,
          "Missing GitHub token. Provide 'Authorization: Bearer <token>' header or set GITHUB_TOKEN env var."),
         []) := by
  have htok : resolveGithubToken authorization none none = none := by
    unfold resolveGithubToken
    cases authorization with
    | none => rfl
    | some a =>
      have hnb2 : (!(a == "") && a.toLower.startsWith "bearer ") = false := hnb
      show (if (!(a == "") && a.toLower.startsWith "bearer ") = true
            then some (splitOnceTail a).trim else pyOr none none) = none
      rw [hnb2]
      rfl
  unfold createGithubRepo
  rw [htok]
  rfl

/-- C8 witness: the concrete tokenless request — no header, no session
token, no environment token — is rejected with 401 and an empty trace. -/
theorem c8_witness :
    createGithubRepo none none none (.ok [("project_name", JValue.str "Demo")])
        [] (.ok 201) "" (.ok ()) (.ok ()) (.ok ()) 0 ""
      = (.error (401,
          "Missing GitHub token. Provide 'Authorization: Bearer <token>' header or set GITHUB_TOKEN env var."),
         []) :=
  c8_missing_token_401 none (.ok [("project_name", JValue.str "Demo")]) []
    (.ok 201) "" (.ok ()) (.ok ()) (.ok ()) 0 "" (by rfl)

/-- C7: (1) whenever the rendering engine raises, the project generator
deletes the freshly created temporary directory before failing — the
trace is exactly create, render, delete, and the result a 500; (2) on
every exit path of the download endpoint the temporary directory is
deleted exactly as many times as it is created (at most once, and exactly
once whenever the endpoint got past resolution); (3) on every exit path
of the github endpoint — success, render/git failure, push failure — the
deletion count equals the creation count, at most one, and exactly one
whenever a temporary directory was created. -/
theorem c7_tempdir_cleanup :
    (∀ (templateName : Option String) (templatePath tempDir msg : String),
      optTruthy templateName = true →
      generateCookiecutterProject templateName (.ok templatePath) tempDir
          (.error msg)
        = (.error (500, "Error generating template: " ++ msg),
           [Ev.mkdtemp, Ev.renderCall, Ev.rmtree]))
    ∧ (∀ (resolveRes : Except HttpError Unit) (renderRes zipRes : Except String Unit),
        (downloadTemplate resolveRes renderRes zipRes).2.count Ev.rmtree
          = (downloadTemplate resolveRes renderRes zipRes).2.count Ev.mkdtemp
        ∧ (downloadTemplate resolveRes renderRes zipRes).2.count Ev.mkdtemp ≤ 1
        ∧ (resolveRes = .ok () →
            (downloadTemplate resolveRes renderRes zipRes).2.count Ev.rmtree = 1))
    ∧ (∀ (authorization sessionToken envToken : Option String)
          (templateCfg : Except HttpError PyDict) (overrides : PyDict)
          (httpResult : Except String Nat) (upstreamDetail : String)
          (resolveRes : Except HttpError Unit)
          (renderRes gitOpsRes : Except String Unit) (pushExitCode : Int)
          (pushStderr : String),
        (createGithubRepo authorization sessionToken envToken templateCfg
            overrides httpResult upstreamDetail resolveRes renderRes gitOpsRes
            pushExitCode pushStderr).2.count Ev.rmtree
          = (createGithubRepo authorization sessionToken envToken templateCfg
              overrides httpResult upstreamDetail resolveRes renderRes gitOpsRes
              pushExitCode pushStderr).2.count Ev.mkdtemp
        ∧ (createGithubRepo authorization sessionToken envToken templateCfg
            overrides httpResult upstreamDetail resolveRes renderRes gitOpsRes
            pushExitCode pushStderr).2.count Ev.mkdtemp ≤ 1
        ∧ (Ev.mkdtemp ∈
            (createGithubRepo authorization sessionToken envToken templateCfg
              overrides httpResult upstreamDetail resolveRes renderRes gitOpsRes
              pushExitCode pushStderr).2 →
            (createGithubRepo authorization sessionToken envToken templateCfg
              overrides httpResult upstreamDetail resolveRes renderRes gitOpsRes
              pushExitCode pushStderr).2.count Ev.rmtree = 1)) := by
  refine ⟨?_, ?_, ?_⟩
  · intro templateName templatePath tempDir msg h
    unfold generateCookiecutterProject
    simp [h]
  · intro resolveRes renderRes zipRes
    cases resolveRes with
    | error e => simp [downloadTemplate]
    | ok u =>
      cases u
      cases renderRes <;> cases zipRes <;> simp [downloadTemplate]
  · intro authorization sessionToken envToken templateCfg overrides httpResult
      upstreamDetail resolveRes renderRes gitOpsRes pushExitCode pushStderr
    unfold createGithubRepo
    by_cases htok : optTruthy (resolveGithubToken authorization sessionToken envToken) <;>
      simp only [htok, Bool.not_true, Bool.not_false, Bool.false_eq_true,
        if_false, if_true]
    · cases templateCfg with
      | error e => simp
      | ok cfg =>
        cases httpResult with
        | error msg => simp
        | ok status =>
          by_cases h4 : 400 ≤ status <;> simp only [h4, if_true, if_false]
          · simp
          · cases resolveRes with
            | error e => simp
            | ok u =>
              cases u
              cases renderRes <;> cases gitOpsRes <;>
                by_cases hp : pushExitCode ≠ 0 <;> simp [hp]
    · simp

/-- C5 witness: with a token from the environment and an upstream 422
(`"Validation Failed"`), the endpoint fails with 422 and that detail, and
no temporary directory is created; with an upstream 500 it fails with
502. -/
theorem c5_witness :
    (createGithubRepo none none (some "tok")
        (.ok [("project_name", JValue.str "Demo")]) [] (.ok 422)
        "Validation Failed" (.ok ()) (.ok ()) (.ok ()) 0 "").1
      = .error (422, "Validation Failed")
    ∧ (createGithubRepo none none (some "tok")
        (.ok [("project_name", JValue.str "Demo")]) [] (.ok 500)
        "boom" (.ok ()) (.ok ()) (.ok ()) 0 "").1
      = .error (502, "boom") := by
  constructor
  · exact ((c5_upstream_status_mapping none none (some "tok")
      [("project_name", JValue.str "Demo")] [] 422 "Validation Failed"
      (.ok ()) (.ok ()) (.ok ()) 0 "" (by rfl)).1
      (Or.inr (Or.inr (Or.inr rfl)))).1
  · exact ((c5_upstream_status_mapping none none (some "tok")
      [("project_name", JValue.str "Demo")] [] 500 "boom"
      (.ok ()) (.ok ()) (.ok ()) 0 "" (by rfl)).2.1
      (by omega) (by omega)).1
